import Mathlib

/-!
Verification of the Credit Approval System backend (`src/backend/server.py`).

Shallow embedding conventions:
* Python floats are embedded as exact rationals (`ℚ`); Python ints as `Int`.
* MongoDB documents created by this application always carry all of their
  keys, so `dict.get(k, default)` on them reads the stored field; the default
  is only reachable for a missing key, never for a stored value such as `0`.
* A Python `ZeroDivisionError` (an unhandled fault) is modelled by `none`:
  every fallible function returns an `Option`.
* Timestamps are opaque integers (the logic never inspects them).
-/

/-- Python `int(x)` applied to a rational: truncation toward zero
(`Int.div` is T-division and `q.den > 0`). -/
def pyInt (q : ℚ) : Int := Int.tdiv q.num (q.den : Int)

/-- The floor of a rational, written so that it evaluates in the kernel
(`Int.fdiv` is floor division and `q.den > 0`). -/
def ratFloor (q : ℚ) : Int := Int.fdiv q.num (q.den : Int)

/-- Python `round(x)` to the nearest integer, ties to even. -/
def pyRound (q : ℚ) : Int :=
  let f := ratFloor q
  let r := q - (f : ℚ)
  if r < 1/2 then f
  else if 1/2 < r then f + 1
  else if Int.emod f 2 = 0 then f else f + 1

/-- Python `round(x, 2)`: round to two decimal places. -/
def round2 (q : ℚ) : ℚ := (pyRound (q * 100) : ℚ) / 100

/-- The stored customer document (`Customer` model in `server.py`). -/
structure Customer where
  customer_id : String
  first_name : String
  last_name : String
  phone_number : Option String
  monthly_salary : ℚ
  approved_limit : ℚ
  current_debt : ℚ
  created_at : Int
deriving DecidableEq

/-- Payload of `POST /register` (`CustomerCreate` model). -/
structure CustomerCreate where
  first_name : String
  last_name : String
  phone_number : Option String
  monthly_salary : ℚ
deriving DecidableEq

/-- The stored loan document (`Loan` model in `server.py`). -/
structure Loan where
  loan_id : String
  customer_id : String
  loan_amount : ℚ
  tenure : Int
  interest_rate : ℚ
  monthly_repayment : ℚ
  emis_paid_on_time : Int
  start_date : Int
  end_date : Int
  status : String
  created_at : Int
deriving DecidableEq

/-- Payload of `POST /create-loan` (`LoanCreate` model). -/
structure LoanCreate where
  customer_id : String
  loan_amount : ℚ
  interest_rate : ℚ
  tenure : Int
deriving DecidableEq

/-- Payload of `POST /check-eligibility` (`LoanEligibility` model). -/
structure LoanEligibility where
  customer_id : String
  loan_amount : ℚ
  interest_rate : ℚ
  tenure : Int
deriving DecidableEq

/-- A stored payment document (`LoanPayment` model). -/
structure LoanPayment where
  loan_id : String
  payment_amount : ℚ
  payment_date : Int
deriving DecidableEq

/-- `calculate_credit_score` (`server.py` lines 81-110).

`none` models the `ZeroDivisionError` raised on line 94 when the stored
`approved_limit` is `0`: `customer.get('approved_limit', 1)` substitutes `1`
only for a missing key, not for a stored value of `0`. -/
def calculate_credit_score (customer : Customer) (loans : List Loan) : Option Int :=
  let score : Int := 500
  if loans.isEmpty then some score
  else
    let total_emis : Int := (loans.map Loan.tenure).sum
    let paid_on_time : Int := (loans.map Loan.emis_paid_on_time).sum
    let payment_ratio : ℚ := if 0 < total_emis then (paid_on_time : ℚ) / (total_emis : ℚ) else 0
    let score := score + pyInt (payment_ratio * 200)
    if customer.approved_limit = 0 then none
    else
      let debt_ratio : ℚ := customer.current_debt / customer.approved_limit
      let score := score + pyInt ((1 - debt_ratio) * 150)
      let score := if 0 < loans.length then score + 100 else score
      let score := if 3 < loans.length then score + 50 else score
      let score :=
        if ¬ loans.isEmpty then
          let avg_loan_amount : ℚ := (loans.map Loan.loan_amount).sum / (loans.length : ℚ)
          let income_ratio : ℚ :=
            if 0 < avg_loan_amount then customer.monthly_salary / avg_loan_amount else 0
          if 2 < income_ratio then score + 50 else score
        else score
      some (max (min score 850) 300)

/-- `calculate_emi` (`server.py` lines 112-117).

`none` models the `ZeroDivisionError` cases: `principal / tenure` with
`tenure = 0`, `pow(0.0, n)` with `n < 0`, and the annuity denominator
`pow(1+i, tenure) - 1` being `0`.  Note the zero-rate branch returns
`principal / tenure` directly, without `round(_, 2)`. -/
def calculate_emi (principal rate : ℚ) (tenure : Int) : Option ℚ :=
  let monthly_rate : ℚ := rate / (12 * 100)
  if monthly_rate = 0 then
    if (tenure : ℚ) = 0 then none
    else some (principal / (tenure : ℚ))
  else if 1 + monthly_rate = 0 ∧ tenure < 0 then none
  else
    let p : ℚ := (1 + monthly_rate) ^ tenure
    if p - 1 = 0 then none
    else some (round2 (principal * monthly_rate * p / (p - 1)))

/-- `determine_interest_rate` (`server.py` lines 119-126). -/
def determine_interest_rate (credit_score : Int) : ℚ :=
  if 750 ≤ credit_score then 8
  else if 650 ≤ credit_score then 10
  else if 550 ≤ credit_score then 12
  else 15

/-- `register_customer` (`server.py` lines 134-148): builds the customer
document that is inserted; `approved_limit = round(36 * monthly_salary)`.
The route performs no validation of `monthly_salary`. -/
def register_customer (d : CustomerCreate) (customer_id : String) (now : Int) : Customer :=
  { customer_id := customer_id
    first_name := d.first_name
    last_name := d.last_name
    phone_number := d.phone_number
    monthly_salary := d.monthly_salary
    approved_limit := (pyRound (36 * d.monthly_salary) : ℚ)
    current_debt := 0
    created_at := now }

/-- Response body of `POST /check-eligibility` (`server.py` lines 195-203).
The route returns the corrected rate under both the `interest_rate` and the
`corrected_interest_rate` keys. -/
structure EligResponse where
  customer_id : String
  approval : Bool
  interest_rate : ℚ
  corrected_interest_rate : ℚ
  tenure : Int
  monthly_installment : ℚ
  credit_score : Int
deriving DecidableEq

/-- `check_eligibility` (`server.py` lines 162-203), for an existing customer
`c` whose stored loans are `loans`.  `none` models an unhandled
`ZeroDivisionError` (inside the scorer, inside `calculate_emi`, or at
`total_emi / monthly_salary` when the stored salary is `0`). -/
def check_eligibility (c : Customer) (loans : List Loan) (r : LoanEligibility) :
    Option EligResponse :=
  (calculate_credit_score c loans).bind fun credit_score =>
  let suggested_rate := determine_interest_rate credit_score
  (calculate_emi r.loan_amount r.interest_rate r.tenure).bind fun emi =>
  if c.monthly_salary = 0 then none
  else
    let total_emi : ℚ := (loans.map Loan.monthly_repayment).sum + emi
    let emi_to_income_ratio : ℚ := total_emi / c.monthly_salary
    let new_debt : ℚ := c.current_debt + r.loan_amount
    let ac : Bool × ℚ :=
      if credit_score < 500 then (false, r.interest_rate)
      else if 1/2 < emi_to_income_ratio then (false, r.interest_rate)
      else if c.approved_limit < new_debt then (false, r.interest_rate)
      else if credit_score < 650 then (true, max r.interest_rate suggested_rate)
      else (true, r.interest_rate)
    (calculate_emi r.loan_amount ac.2 r.tenure).bind fun inst =>
    some { customer_id := r.customer_id
           approval := ac.1
           interest_rate := ac.2
           corrected_interest_rate := ac.2
           tenure := r.tenure
           monthly_installment := inst
           credit_score := credit_score }

/-- Successful outcome of `POST /create-loan`: the inserted loan document
(`server.py` lines 232-244) and the customer document after the
`$inc current_debt` update (lines 250-253). -/
structure CreateLoanOutcome where
  loan : Loan
  customer : Customer
  monthly_installment : ℚ
deriving DecidableEq

/-- `create_loan` (`server.py` lines 205-263), for an existing customer `c`
whose stored loans are `loans`.  `none` covers both the HTTP 400 business
rejection (line 222) and an unhandled `ZeroDivisionError`; `some` means a
loan document was inserted and the customer's debt incremented. -/
def create_loan (c : Customer) (loans : List Loan) (d : LoanCreate)
    (loan_id : String) (now : Int) : Option CreateLoanOutcome :=
  (calculate_credit_score c loans).bind fun credit_score =>
  (calculate_emi d.loan_amount d.interest_rate d.tenure).bind fun emi =>
  if c.monthly_salary = 0 then none
  else
    let total_emi : ℚ := (loans.map Loan.monthly_repayment).sum + emi
    let emi_to_income_ratio : ℚ := total_emi / c.monthly_salary
    let new_debt : ℚ := c.current_debt + d.loan_amount
    if credit_score < 500 ∨ 1/2 < emi_to_income_ratio ∨ c.approved_limit < new_debt then
      none
    else
      some { loan := { loan_id := loan_id
                       customer_id := d.customer_id
                       loan_amount := d.loan_amount
                       tenure := d.tenure
                       interest_rate := d.interest_rate
                       monthly_repayment := emi
                       emis_paid_on_time := 0
                       start_date := now
                       end_date := now + d.tenure * 30
                       status := "active"
                       created_at := now }
             customer := { c with current_debt := c.current_debt + d.loan_amount }
             monthly_installment := emi }

/-- MongoDB `update_one` with `$inc emis_paid_on_time` on the loans
collection: increments the first document matching the loan id. -/
def incFirstOnTime : List Loan → String → List Loan
  | [], _ => []
  | l :: rest, lid =>
    if l.loan_id == lid then
      { l with emis_paid_on_time := l.emis_paid_on_time + 1 } :: rest
    else l :: incFirstOnTime rest lid

/-- `make_payment` (`server.py` lines 322-352) over the loans collection
`db`: fails (404) only when no loan matches; otherwise records the payment
and increments `emis_paid_on_time` on the loan iff the amount is within
`0.01` of its `monthly_repayment`.  The route never touches the customers
collection. -/
def make_payment (db : List Loan) (lid : String) (amount : ℚ) (now : Int) :
    Option (List Loan × LoanPayment) :=
  match db.find? (fun l => l.loan_id == lid) with
  | none => none
  | some loan =>
    let db' := if |amount - loan.monthly_repayment| < 1/100 then incFirstOnTime db lid else db
    some (db', { loan_id := lid, payment_amount := amount, payment_date := now })

/-- The projection of a loan onto the fields the credit scorer reads
(`tenure`, `emis_paid_on_time`, `loan_amount`). -/
def loanScoreProj (l : Loan) : Int × Int × ℚ := (l.tenure, l.emis_paid_on_time, l.loan_amount)

/-! ## Concrete witness data -/

def w1cust : Customer := ⟨"C1", "Ada", "Lov", none, 50000, 1800000, 0, 0⟩

def w1loan : Loan := ⟨"L1", "C1", 20000, 10, 10, 100, 10, 0, 300, "active", 0⟩

def w1req : LoanEligibility := ⟨"C1", 12000, 0, 12⟩

def w1resp : EligResponse := ⟨"C1", true, 0, 0, 12, 1000, 850⟩

def w2cust : Customer := ⟨"C2", "Eva", "Kim", none, 40, 1440, 0, 0⟩

def w2loan : Loan := ⟨"L2", "C2", 10, 5, 10, 1/5, 5, 0, 150, "active", 0⟩

def w2resp : EligResponse := ⟨"C2", true, 0, 0, 6, 1, 850⟩

def w8cust : Customer := ⟨"C8", "Ian", "Ng", none, 40, 1440, 0, 0⟩

def w8loan : Loan := ⟨"L8", "C8", 10, 5, 10, 1/5, 5, 0, 150, "active", 0⟩

def w8req : LoanCreate := ⟨"C8", 6, 0, 6⟩

def w8out : CreateLoanOutcome :=
  ⟨⟨"LN8", "C8", 6, 6, 0, 1, 0, 7, 187, "active", 7⟩,
   ⟨"C8", "Ian", "Ng", none, 40, 1440, 6, 0⟩, 1⟩

def w9loan : Loan := ⟨"L9", "C9", 50, 12, 10, 10, 3, 0, 360, "active", 0⟩

def w10custA : Customer := ⟨"A", "Ana", "Poe", none, 500, 1800, 100, 0⟩

def w10custB : Customer := ⟨"B", "Tom", "Rex", some "777", 500, 1800, 100, 9⟩

def w10l1 : Loan := ⟨"1", "A", 20, 10, 10, 5, 10, 0, 1, "active", 0⟩

def w10l2 : Loan := ⟨"2", "A", 30, 5, 12, 7, 3, 0, 1, "active", 0⟩

def w10l2x : Loan := ⟨"9", "B", 30, 5, 8, 9, 3, 4, 5, "closed", 6⟩

def w10l1x : Loan := ⟨"8", "B", 20, 10, 15, 2, 10, 7, 8, "closed", 9⟩

/-! ## Claim theorems -/

/-- C7: `determine_interest_rate` maps score ≥ 750 to 8.0, [650, 750) to 10.0,
[550, 650) to 12.0, below 550 to 15.0 (inclusive lower bounds at 750/650/550),
and is antitone: for s ≤ t, rate s ≥ rate t. -/
theorem c7_rate_policy (s t : Int) (hst : s ≤ t) :
    (750 ≤ s → determine_interest_rate s = 8) ∧
    (650 ≤ s ∧ s < 750 → determine_interest_rate s = 10) ∧
    (550 ≤ s ∧ s < 650 → determine_interest_rate s = 12) ∧
    (s < 550 → determine_interest_rate s = 15) ∧
    determine_interest_rate t ≤ determine_interest_rate s := by
  unfold determine_interest_rate
  refine ⟨fun h => ?_, fun h => ?_, fun h => ?_, fun h => ?_, ?_⟩
  · rw [if_pos h]
  · rw [if_neg (by omega), if_pos h.1]
  · rw [if_neg (by omega), if_neg (by omega), if_pos h.1]
  · rw [if_neg (by omega), if_neg (by omega), if_neg (by omega)]
  · split_ifs <;> first | omega | norm_num

/-- Witness for C7 at the boundary pair s = 650, t = 750. -/
theorem c7_rate_policy_witness :
    ((750 ≤ (650:Int) → determine_interest_rate 650 = 8) ∧
     (650 ≤ (650:Int) ∧ (650:Int) < 750 → determine_interest_rate 650 = 10) ∧
     (550 ≤ (650:Int) ∧ (650:Int) < 650 → determine_interest_rate 650 = 12) ∧
     ((650:Int) < 550 → determine_interest_rate 650 = 15) ∧
     determine_interest_rate 750 ≤ determine_interest_rate 650) :=
  c7_rate_policy 650 750 (by norm_num)

/-- C5 counterexample: at `P = 100, r = 0, n = 3` the zero-rate branch of
`calculate_emi` returns `100/3` unrounded, not `round(100/3, 2)` as the
claim states. -/
theorem c5_counterexample :
    calculate_emi 100 0 3 = some (100/3) ∧
    ¬ calculate_emi 100 0 3 = some (round2 (100/3)) := by
  with_unfolding_all decide

/-- C5 amended: for P > 0 and n ≥ 1, `calculate_emi` with rate 0 returns
`P / n` exactly, with no 2-decimal rounding applied (only the nonzero-rate
annuity branch rounds). -/
theorem c5_zero_rate_unrounded (P : ℚ) (n : Int) (_hP : 0 < P) (hn : 1 ≤ n) :
    calculate_emi P 0 n = some (P / (n : ℚ)) := by
  have hn0 : ((n : ℚ)) ≠ 0 := Int.cast_ne_zero.mpr (by omega)
  unfold calculate_emi
  simp [hn0]

/-- Witness for the amended C5 at `P = 100, n = 3`. -/
theorem c5_zero_rate_unrounded_witness :
    (0:ℚ) < 100 ∧ (1:Int) ≤ 3 ∧ calculate_emi 100 0 3 = some (100 / (3:ℚ)) :=
  ⟨by norm_num, by norm_num, c5_zero_rate_unrounded 100 3 (by norm_num) (by norm_num)⟩

/-- C4 is a code bug: for a stored customer whose `approved_limit` is `0`
and who has a loan, `calculate_credit_score` hits `current_debt / 0`
(`dict.get('approved_limit', 1)` guards a missing key, not a stored `0`),
modelled here as `none` — no denominator-1 fallback exists. -/
theorem c4_score_faults_at_zero_limit :
    calculate_credit_score ⟨"C4", "Ann", "Roy", none, 30000, 0, 4000, 0⟩
      [⟨"L4", "C4", 10000, 12, 10, 900, 6, 0, 360, "active", 0⟩] = none := by
  with_unfolding_all decide

/-- C6 counterexample: with `approved_limit = 0` and a non-empty history the
scorer faults (`ZeroDivisionError`, modelled as `none`) instead of returning
an integer in [300, 850]. -/
theorem c6_counterexample :
    calculate_credit_score ⟨"C6", "Bo", "Ek", none, 20000, 0, 0, 0⟩
      [⟨"L6", "C6", 5000, 6, 12, 850, 3, 0, 180, "active", 0⟩] = none := by
  with_unfolding_all decide

/-- C6 amended: whenever `calculate_credit_score` returns a score (i.e. does
not fault on a zero `approved_limit`), the score is within [300, 850]; an
empty loan history yields exactly 500 with no component adjustments. -/
theorem c6_score_range (c : Customer) (ls : List Loan) :
    (ls = [] → calculate_credit_score c ls = some 500) ∧
    (∀ s, calculate_credit_score c ls = some s → 300 ≤ s ∧ s ≤ 850) := by
  constructor
  · rintro rfl; rfl
  · intro s hs
    simp only [calculate_credit_score] at hs
    split at hs
    · simp only [Option.some.injEq] at hs
      omega
    · split at hs
      · exact absurd hs (by simp)
      · simp only [Option.some.injEq] at hs
        refine ⟨hs ▸ le_max_right _ _,
          hs ▸ max_le (le_trans (min_le_right _ _) (by norm_num)) (by norm_num)⟩

/-- Witness for the amended C6: an empty history scores exactly 500, in range. -/
theorem c6_score_range_witness :
    calculate_credit_score ⟨"W6", "Ada", "Bell", none, 1000, 36000, 0, 0⟩ [] = some 500 ∧
    (300 ≤ (500:Int) ∧ (500:Int) ≤ 850) :=
  ⟨(c6_score_range _ []).1 rfl,
   (c6_score_range ⟨"W6", "Ada", "Bell", none, 1000, 36000, 0, 0⟩ []).2 500
     ((c6_score_range _ []).1 rfl)⟩

set_option maxRecDepth 4000 in
/-- C3 is a code bug: the code performs no numeric validation anywhere.
Register accepts a negative salary (producing a customer document with a
negative `approved_limit`); a zero tenure flows into `calculate_emi` and
faults there (`ZeroDivisionError`, modelled as `none`) instead of being
rejected beforehand; and a negative loan amount is not rejected at all —
it flows through scorer and calculator and is approved. -/
theorem c3_no_validation :
    (register_customer ⟨"Ann", "Lee", none, -10⟩ "R3" 0).monthly_salary = -10 ∧
    (register_customer ⟨"Ann", "Lee", none, -10⟩ "R3" 0).approved_limit = -360 ∧
    calculate_emi 5000 10 0 = none ∧
    check_eligibility ⟨"C3", "Cam", "Fox", none, 40000, 1440000, 0, 0⟩ []
      ⟨"C3", 5000, 10, 0⟩ = none ∧
    create_loan ⟨"C3", "Cam", "Fox", none, 40000, 1440000, 0, 0⟩ []
      ⟨"C3", 5000, 10, 0⟩ "L3" 0 = none ∧
    check_eligibility ⟨"G3", "Gil", "Hom", none, 50000, 1800000, 0, 0⟩
      [⟨"LG", "G3", 20000, 10, 10, 100, 10, 0, 300, "active", 0⟩]
      ⟨"G3", -6000, 0, 12⟩ =
      some ⟨"G3", true, 0, 0, 12, -500, 850⟩ := by
  refine ⟨?_, ?_, ?_, ?_, ?_, ?_⟩ <;> with_unfolding_all decide

/-- C1: for an existing customer, `check_eligibility` decides by the first
true condition of the ordered cascade (reject on score < 500, then on
EMI-to-income ratio > 0.5, then on new debt > approved limit; else approve
at `max(requested, suggested)` when score < 650 and at the requested rate
when score ≥ 650), the returned installment is recomputed with the effective
rate, and on rejection the returned rate is the uncorrected requested rate. -/
theorem c1_eligibility_cascade (c : Customer) (ls : List Loan) (r : LoanEligibility)
    (resp : EligResponse) (h : check_eligibility c ls r = some resp) :
    ∃ s e, calculate_credit_score c ls = some s ∧
      calculate_emi r.loan_amount r.interest_rate r.tenure = some e ∧
      resp.credit_score = s ∧ resp.tenure = r.tenure ∧
      (resp.approval, resp.corrected_interest_rate) =
        (if s < 500 then (false, r.interest_rate)
         else if 1/2 < ((ls.map Loan.monthly_repayment).sum + e) / c.monthly_salary then
           (false, r.interest_rate)
         else if c.approved_limit < c.current_debt + r.loan_amount then
           (false, r.interest_rate)
         else if s < 650 then (true, max r.interest_rate (determine_interest_rate s))
         else (true, r.interest_rate)) ∧
      calculate_emi r.loan_amount resp.corrected_interest_rate r.tenure =
        some resp.monthly_installment := by
  simp only [check_eligibility, Option.bind_eq_some] at h
  obtain ⟨s, hs, e, he, h⟩ := h
  refine ⟨s, e, hs, he, ?_⟩
  split at h
  · exact absurd h (by simp)
  · simp only [Option.bind_eq_some, Option.some.injEq] at h
    obtain ⟨i, hi, hresp⟩ := h
    subst hresp
    exact ⟨rfl, rfl, rfl, hi⟩

set_option maxRecDepth 4000 in
/-- Witness for C1: a customer with score 850 requesting 12000 at rate 0 over
12 months is approved at the unchanged rate with installment 1000. -/
theorem c1_witness :
    ∃ s e, calculate_credit_score w1cust [w1loan] = some s ∧
      calculate_emi w1req.loan_amount w1req.interest_rate w1req.tenure = some e ∧
      w1resp.credit_score = s ∧ w1resp.tenure = w1req.tenure ∧
      (w1resp.approval, w1resp.corrected_interest_rate) =
        (if s < 500 then (false, w1req.interest_rate)
         else if 1/2 < (([w1loan].map Loan.monthly_repayment).sum + e) / w1cust.monthly_salary then
           (false, w1req.interest_rate)
         else if w1cust.approved_limit < w1cust.current_debt + w1req.loan_amount then
           (false, w1req.interest_rate)
         else if s < 650 then (true, max w1req.interest_rate (determine_interest_rate s))
         else (true, w1req.interest_rate)) ∧
      calculate_emi w1req.loan_amount w1resp.corrected_interest_rate w1req.tenure =
        some w1resp.monthly_installment :=
  c1_eligibility_cascade w1cust [w1loan] w1req w1resp (by with_unfolding_all decide)

/-- C2: against the same stored state, `create_loan` persists a loan iff the
three reject rules of `check_eligibility` all fail (equivalently, iff
`check_eligibility` approves), and the persisted loan carries exactly the
requested rate with `monthly_repayment` equal to the EMI at that rate — no
`max(requested, suggested)` correction is applied by `create_loan`. -/
theorem c2_create_refines_eligibility (c : Customer) (ls : List Loan)
    (cid lid : String) (amt rate : ℚ) (ten now : Int) (resp : EligResponse)
    (h : check_eligibility c ls ⟨cid, amt, rate, ten⟩ = some resp) :
    ∃ s e, calculate_credit_score c ls = some s ∧
      calculate_emi amt rate ten = some e ∧
      ((∃ out, create_loan c ls ⟨cid, amt, rate, ten⟩ lid now = some out) ↔
        ¬ (s < 500 ∨ 1/2 < ((ls.map Loan.monthly_repayment).sum + e) / c.monthly_salary ∨
            c.approved_limit < c.current_debt + amt)) ∧
      ((∃ out, create_loan c ls ⟨cid, amt, rate, ten⟩ lid now = some out) ↔
        resp.approval = true) ∧
      ∀ out, create_loan c ls ⟨cid, amt, rate, ten⟩ lid now = some out →
        out.loan.interest_rate = rate ∧ out.loan.monthly_repayment = e ∧
        calculate_emi amt rate ten = some out.loan.monthly_repayment := by
  simp only [check_eligibility, Option.bind_eq_some] at h
  obtain ⟨s, hs, e, he, h⟩ := h
  split at h
  · exact absurd h (by simp)
  case isFalse hsal =>
  simp only [Option.bind_eq_some, Option.some.injEq] at h
  obtain ⟨i, hi, hresp⟩ := h
  refine ⟨s, e, hs, he, ?_⟩
  have hcl : create_loan c ls ⟨cid, amt, rate, ten⟩ lid now =
      if s < 500 ∨ 1/2 < ((ls.map Loan.monthly_repayment).sum + e) / c.monthly_salary ∨
          c.approved_limit < c.current_debt + amt then none
      else some { loan := { loan_id := lid, customer_id := cid, loan_amount := amt,
                            tenure := ten, interest_rate := rate, monthly_repayment := e,
                            emis_paid_on_time := 0, start_date := now,
                            end_date := now + ten * 30, status := "active",
                            created_at := now }
                  customer := { c with current_debt := c.current_debt + amt }
                  monthly_installment := e } := by
    simp only [create_loan, hs, he, Option.some_bind]
    rw [if_neg hsal]
  have hiff1 : (∃ out, create_loan c ls ⟨cid, amt, rate, ten⟩ lid now = some out) ↔
      ¬ (s < 500 ∨ 1/2 < ((ls.map Loan.monthly_repayment).sum + e) / c.monthly_salary ∨
          c.approved_limit < c.current_debt + amt) := by
    rw [hcl]
    split
    case isTrue hR => exact iff_of_false (by simp) (fun hn => hn hR)
    case isFalse hR => exact iff_of_true ⟨_, rfl⟩ hR
  have hac : resp.approval = true ↔
      ¬ (s < 500 ∨ 1/2 < ((ls.map Loan.monthly_repayment).sum + e) / c.monthly_salary ∨
          c.approved_limit < c.current_debt + amt) := by
    subst hresp
    split_ifs <;> simp_all
  refine ⟨hiff1, hiff1.trans hac.symm, ?_⟩
  intro out hout
  rw [hcl] at hout
  split at hout
  · exact absurd hout (by simp)
  · simp only [Option.some.injEq] at hout
    subst hout
    exact ⟨rfl, rfl, he⟩

set_option maxRecDepth 4000 in
/-- Witness for C2: an approving state in which `create_loan` persists the
loan at the requested rate 0 with installment 1. -/
theorem c2_witness :
    ∃ s e, calculate_credit_score w2cust [w2loan] = some s ∧
      calculate_emi 6 0 6 = some e ∧
      ((∃ out, create_loan w2cust [w2loan] ⟨"C2", 6, 0, 6⟩ "LN2" 7 = some out) ↔
        ¬ (s < 500 ∨ 1/2 < (([w2loan].map Loan.monthly_repayment).sum + e) / w2cust.monthly_salary ∨
            w2cust.approved_limit < w2cust.current_debt + 6)) ∧
      ((∃ out, create_loan w2cust [w2loan] ⟨"C2", 6, 0, 6⟩ "LN2" 7 = some out) ↔
        w2resp.approval = true) ∧
      ∀ out, create_loan w2cust [w2loan] ⟨"C2", 6, 0, 6⟩ "LN2" 7 = some out →
        out.loan.interest_rate = 0 ∧ out.loan.monthly_repayment = e ∧
        calculate_emi 6 0 6 = some out.loan.monthly_repayment :=
  c2_create_refines_eligibility w2cust [w2loan] "C2" "LN2" 6 0 6 7 w2resp
    (by with_unfolding_all decide)

/-- C8: when `create_loan` succeeds, the owning customer's `current_debt`
increases by exactly the loan amount and every other customer field is
unchanged. -/
theorem c8_debt_frame (c : Customer) (ls : List Loan) (d : LoanCreate)
    (lid : String) (now : Int) (out : CreateLoanOutcome)
    (h : create_loan c ls d lid now = some out) :
    out.customer.current_debt = c.current_debt + d.loan_amount ∧
    out.customer.customer_id = c.customer_id ∧
    out.customer.first_name = c.first_name ∧
    out.customer.last_name = c.last_name ∧
    out.customer.phone_number = c.phone_number ∧
    out.customer.monthly_salary = c.monthly_salary ∧
    out.customer.approved_limit = c.approved_limit ∧
    out.customer.created_at = c.created_at := by
  simp only [create_loan, Option.bind_eq_some] at h
  obtain ⟨s, hs, e, he, h⟩ := h
  split at h
  · exact absurd h (by simp)
  · split at h
    · exact absurd h (by simp)
    · simp only [Option.some.injEq] at h
      subst h
      exact ⟨rfl, rfl, rfl, rfl, rfl, rfl, rfl, rfl⟩

set_option maxRecDepth 4000 in
/-- Witness for C8: a successful creation for amount 6 raises the debt from
0 to 6 and leaves the other fields intact. -/
theorem c8_witness :
    w8out.customer.current_debt = w8cust.current_debt + w8req.loan_amount ∧
    w8out.customer.customer_id = w8cust.customer_id ∧
    w8out.customer.first_name = w8cust.first_name ∧
    w8out.customer.last_name = w8cust.last_name ∧
    w8out.customer.phone_number = w8cust.phone_number ∧
    w8out.customer.monthly_salary = w8cust.monthly_salary ∧
    w8out.customer.approved_limit = w8cust.approved_limit ∧
    w8out.customer.created_at = w8cust.created_at :=
  c8_debt_frame w8cust [w8loan] w8req "LN8" 7 w8out (by with_unfolding_all decide)

/-- A successful `find?` on the loans collection splits it into a prefix
with no match, the found loan, and a suffix; `incFirstOnTime` updates
exactly the found loan. -/
theorem find_eq_some_decomp (db : List Loan) (lid : String) (l : Loan)
    (h : db.find? (fun x => x.loan_id == lid) = some l) :
    ∃ pre post, db = pre ++ l :: post ∧ (∀ x ∈ pre, (x.loan_id == lid) = false) ∧
      incFirstOnTime db lid =
        pre ++ { l with emis_paid_on_time := l.emis_paid_on_time + 1 } :: post := by
  induction db with
  | nil => simp [List.find?] at h
  | cons a rest ih =>
    by_cases hpa : (a.loan_id == lid) = true
    · have ha : a = l := by
        simp [List.find?, hpa] at h
        exact h
      subst ha
      refine ⟨[], rest, rfl, by simp, ?_⟩
      unfold incFirstOnTime
      rw [if_pos hpa]
      simp
    · have hpf : (a.loan_id == lid) = false := by simpa using hpa
      have h' : rest.find? (fun x => x.loan_id == lid) = some l := by
        simpa [List.find?, hpf] using h
      obtain ⟨pre, post, hdb, hpre, hinc⟩ := ih h'
      refine ⟨a :: pre, post, by rw [hdb, List.cons_append], ?_, ?_⟩
      · intro x hx
        rcases List.mem_cons.mp hx with rfl | hx
        · simpa using hpa
        · exact hpre x hx
      · unfold incFirstOnTime
        rw [if_neg hpa, hinc, List.cons_append]

/-- C9: `make_payment` fails iff the loan id is not found; otherwise it
records the payment `⟨lid, amount, now⟩` unconditionally and increments the
found loan's `emis_paid_on_time` by 1 iff `|amount − monthly_repayment| <
0.01`, leaving every other loan (and every other field of the found loan)
unchanged; it never touches the customers collection. -/
theorem c9_make_payment (db : List Loan) (lid : String) (amount : ℚ) (now : Int) :
    (make_payment db lid amount now = none ↔ db.find? (fun l => l.loan_id == lid) = none) ∧
    ∀ l, db.find? (fun l => l.loan_id == lid) = some l →
      ∃ pre post, db = pre ++ l :: post ∧ (∀ x ∈ pre, (x.loan_id == lid) = false) ∧
        make_payment db lid amount now =
          some ((if |amount - l.monthly_repayment| < 1/100 then
                   pre ++ { l with emis_paid_on_time := l.emis_paid_on_time + 1 } :: post
                 else db),
                { loan_id := lid, payment_amount := amount, payment_date := now }) := by
  constructor
  · unfold make_payment
    cases hf : db.find? (fun l => l.loan_id == lid) <;> simp [hf]
  · intro l hf
    obtain ⟨pre, post, hdb, hpre, hinc⟩ := find_eq_some_decomp db lid l hf
    refine ⟨pre, post, hdb, hpre, ?_⟩
    unfold make_payment
    rw [hf]
    rw [hinc]

/-- Witness for C9: a payment of installment + 0.005 on the only stored loan
is recorded and increments the on-time counter. -/
theorem c9_witness :
    ∃ pre post, [w9loan] = pre ++ w9loan :: post ∧
      (∀ x ∈ pre, (x.loan_id == "L9") = false) ∧
      make_payment [w9loan] "L9" (10 + 5/1000) 0 =
        some ((if |(10 + 5/1000 : ℚ) - w9loan.monthly_repayment| < 1/100 then
                 pre ++ { w9loan with emis_paid_on_time := w9loan.emis_paid_on_time + 1 } :: post
               else [w9loan]),
              { loan_id := "L9", payment_amount := 10 + 5/1000, payment_date := 0 }) :=
  (c9_make_payment [w9loan] "L9" (10 + 5/1000) 0).2 w9loan (by with_unfolding_all decide)

/-- C10: `calculate_credit_score` depends only on the customer's
`current_debt`, `approved_limit`, `monthly_salary` and on each loan's
`tenure`, `emis_paid_on_time`, `loan_amount`: any two runs whose loan lists
have permuted projections (hence also permuted lists, or lists differing
only in the other loan fields such as status, rate, repayment, dates)
produce the same result. -/
theorem c10_score_dependency (c₁ c₂ : Customer) (ls₁ ls₂ : List Loan)
    (hd : c₁.current_debt = c₂.current_debt)
    (hl : c₁.approved_limit = c₂.approved_limit)
    (hs : c₁.monthly_salary = c₂.monthly_salary)
    (hp : (ls₁.map loanScoreProj).Perm (ls₂.map loanScoreProj)) :
    calculate_credit_score c₁ ls₁ = calculate_credit_score c₂ ls₂ := by
  have hlen : ls₁.length = ls₂.length := by
    have := hp.length_eq
    simpa using this
  have hten : (ls₁.map Loan.tenure).sum = (ls₂.map Loan.tenure).sum := by
    have := (hp.map Prod.fst).sum_eq
    simpa [List.map_map, Function.comp, loanScoreProj] using this
  have hemis : (ls₁.map Loan.emis_paid_on_time).sum = (ls₂.map Loan.emis_paid_on_time).sum := by
    have := (hp.map (fun p => p.2.1)).sum_eq
    simpa [List.map_map, Function.comp, loanScoreProj] using this
  have hamt : (ls₁.map Loan.loan_amount).sum = (ls₂.map Loan.loan_amount).sum := by
    have := (hp.map (fun p => p.2.2)).sum_eq
    simpa [List.map_map, Function.comp, loanScoreProj] using this
  have hempty : ls₁.isEmpty = ls₂.isEmpty := by
    rcases ls₁ with _ | ⟨a, t⟩ <;> rcases ls₂ with _ | ⟨b, u⟩ <;> simp_all
  simp only [calculate_credit_score, hd, hl, hs, hten, hemis, hamt, hlen, hempty]

/-- Witness for C10: two customers differing in identity fields, with loan
lists that are permuted and differ in status, rate, repayment and dates,
score identically. -/
theorem c10_witness :
    calculate_credit_score w10custA [w10l1, w10l2] =
      calculate_credit_score w10custB [w10l2x, w10l1x] :=
  c10_score_dependency w10custA w10custB [w10l1, w10l2] [w10l2x, w10l1x]
    rfl rfl rfl (by with_unfolding_all decide)
